import Mathlib

/-!
Verification of the progression core of the Git Quest train page
(src/app/games/git-quest-train/page.jsx, final "clean deduped" version).

The embedding below follows the JavaScript source: state updates that the
page performs through React `setState` callbacks are written as pure
functions from the old state to the new state, and the runtime values that
JavaScript leaves untyped (submitted answers, persisted JSON) are given
explicit sum types.
-/

namespace GitQuest

/-- Settings record; in the source it is the module constant
`SETTINGS = \x7b sequentialUnlock: true \x7d`. -/
structure Settings where
  sequentialUnlock : Bool
deriving Repr, DecidableEq

/-- The module constant `SETTINGS`. -/
def SETTINGS : Settings := { sequentialUnlock := true }

/-- Aggregate meta record of the progress ledger:
`\x7b xp, coins, streak, badges \x7d` (the `settings` field of the runtime object
is the constant `SETTINGS` and is carried separately here). -/
structure Meta where
  xp : Nat
  coins : Nat
  streak : Nat
  badges : List String
deriving Repr, DecidableEq

/-- Default meta state: `useState(\x7b xp: 0, coins: 0, streak: 0, badges: [] \x7d)`. -/
def defaultMeta : Meta := { xp := 0, coins := 0, streak := 0, badges := [] }

/-- `awardXP = (delta) => setMeta((m)=> (\x7b ...m, xp: m.xp + delta + (m.streak>=3?10:0),
coins: m.coins + Math.floor(delta/10), streak: m.streak + 1 \x7d))`.
Amounts are naturals (all call sites pass non-negative literals), so
`Math.floor(delta/10)` is natural division. -/
def awardXP (m : Meta) (delta : Nat) : Meta :=
  { m with
    xp := m.xp + delta + (if m.streak ≥ 3 then 10 else 0)
    coins := m.coins + delta / 10
    streak := m.streak + 1 }

/-- `breakStreak = () => setMeta((m)=> (\x7b ...m, streak: 0 \x7d))`. -/
def breakStreak (m : Meta) : Meta := { m with streak := 0 }

/-- `grantBadge = (name) => setMeta((m)=> m.badges.includes(name) ? m
: (\x7b ...m, badges: [...m.badges, name] \x7d))`. -/
def grantBadge (m : Meta) (name : String) : Meta :=
  if m.badges.contains name then m else { m with badges := m.badges ++ [name] }

/-- `canOpen(i) \x7b if (!SETTINGS.sequentialUnlock) return true; if (i===0)
return true; return done[i-1]; \x7d`  — parameterised over the settings record
the source reads from the module constant. A JavaScript read `done[i-1]`
outside the array bounds yields `undefined`, which is falsy, hence `getD
... false`. -/
def canOpen (settings : Settings) (done : List Bool) (i : Nat) : Bool :=
  if !settings.sequentialUnlock then true
  else if i == 0 then true
  else done.getD (i - 1) false

/-- Panel mode strings "LESSON" / "QUIZ" / "BOSS". -/
inductive Mode
  | LESSON
  | QUIZ
  | BOSS
deriving Repr, DecidableEq

/-- Panel state `\x7b open, idx, mode, topicIdx \x7d` (the source field `open` is a
Lean keyword, rendered here as `opened`). -/
structure Panel where
  opened : Bool
  idx : Option Nat
  mode : Mode
  topicIdx : Nat
deriving Repr, DecidableEq

/-- `openChapter(i) \x7b if (!canOpen(i)) return; setPanel(\x7b open: true, idx: i,
mode: "LESSON", topicIdx: 0 \x7d); \x7d` as a function on the panel state. -/
def openChapter (settings : Settings) (done : List Bool) (i : Nat) (p : Panel) : Panel :=
  if !canOpen settings done i then p
  else { opened := true, idx := some i, mode := .LESSON, topicIdx := 0 }

/-- `backToMap() \x7b setPanel(\x7b open: false, idx: null, mode: "LESSON",
topicIdx: 0 \x7d); \x7d`. -/
def backToMap (_p : Panel) : Panel :=
  { opened := false, idx := none, mode := .LESSON, topicIdx := 0 }

/-- ASCII whitespace removed by JavaScript `String.prototype.trim` (the
Unicode space classes are irrelevant to the content at hand). -/
def jsIsWhitespace (c : Char) : Bool :=
  c = ' ' || c = '\t' || c = '\n' || c = '\r' || c = '\x0b' || c = '\x0c'

/-- JavaScript `String.prototype.trim`: strip leading and trailing
whitespace. -/
def jsTrim (s : String) : String :=
  ⟨((s.data.dropWhile jsIsWhitespace).reverse.dropWhile jsIsWhitespace).reverse⟩

/-- Lower-case one character as JavaScript `toLowerCase` does on the ASCII
range (the content uses ASCII answers). -/
def charToLower (c : Char) : Char :=
  if 'A' ≤ c ∧ c ≤ 'Z' then Char.ofNat (c.toNat + 32) else c

/-- JavaScript `String.prototype.toLowerCase` on the ASCII range. -/
def jsToLower (s : String) : String :=
  ⟨s.data.map charToLower⟩

/-- A quiz/boss question record, restricted to the fields the evaluation
logic reads: `type` (a string, "mcq" or "blank"), `answer` (the correct
option index, for "mcq"), `answerText` (the expected text, for "blank"),
and `xp` (the declared reward). Prompt, options, and explanation are
display-only. -/
structure Question where
  qtype : String
  answer : Option Nat := none
  answerText : Option String := none
  xp : Option Nat := none
deriving Repr, DecidableEq

/-- The component state `answer`: `null`, a selected option index (set by
the radio buttons), or typed text (set by the text input). -/
inductive Submitted
  | none
  | idx (n : Nat)
  | text (s : String)
deriving Repr, DecidableEq

/-- Strict equality `answer === data.answer` between the submitted value
and the stored option index: in JavaScript `null === k` and `"s" === k`
are false for a number `k`, and `n === undefined` is false. -/
def mcqOk (ans : Submitted) (stored : Option Nat) : Bool :=
  match ans, stored with
  | .idx n, some m => n == m
  | _, _ => false

/-- The submitted value as coerced by `(answer||"")` on the fill-in-blank
path: `null` is falsy and becomes `""`. (For a blank-type question the
component state is only ever `null` or the input string: the text input is
the sole writer, and `BossPanel` resets `answer` to `null` on advancing.) -/
def submittedText : Submitted → String
  | .text s => s
  | _ => ""

/-- `(answer||"").trim().toLowerCase() === data.answerText?.toLowerCase()`:
the submitted text is trimmed then lower-cased, the stored text is
lower-cased only; a missing `answerText` makes the optional chain yield
`undefined`, and `string === undefined` is false. -/
def blankOk (ans : Submitted) (stored : Option String) : Bool :=
  match stored with
  | Option.none => false
  | some t => jsToLower (jsTrim (submittedText ans)) == jsToLower t

/-- The shared evaluation in `QuizPanel.submit` and `BossPanel.submit`:
`let ok = false; if (type === "mcq") ok = ...; if (type === "blank")
ok = ...;`. A total function, so no submission can raise. -/
def evalOk (q : Question) (ans : Submitted) : Bool :=
  let ok := false
  let ok := if q.qtype == "mcq" then mcqOk ans q.answer else ok
  let ok := if q.qtype == "blank" then blankOk ans q.answerText else ok
  ok

/-- One topic, restricted to its optional quiz. -/
structure Topic where
  quiz : Option Question := none
deriving Repr, DecidableEq

/-- One chapter record, restricted to the fields the state machine reads:
the (optional) topic list and the (optional) boss question list
(`chapter.boss.questions`, itself optional in the source, flattened to a
list with `?? []` since `boss.questions?.[idx]` is `undefined` on both
absent and empty lists). -/
structure Chapter where
  topics : Option (List Topic) := none
  bossQuestions : List Question := []
deriving Repr, DecidableEq

/-- `nextTopicOrBoss() \x7b ... setPanel(p => \x7b const next = p.topicIdx + 1;
if (currentChapter.topics && next < currentChapter.topics.length) return
\x7b ...p, topicIdx: next, mode: "LESSON" \x7d; return \x7b ...p, mode: "BOSS" \x7d; \x7d); \x7d`. -/
def nextTopicOrBoss (ch : Chapter) (p : Panel) : Panel :=
  let next := p.topicIdx + 1
  match ch.topics with
  | some ts =>
      if next < ts.length then { p with topicIdx := next, mode := .LESSON }
      else { p with mode := .BOSS }
  | Option.none => { p with mode := .BOSS }

/-- One `QuizPanel.submit` click, combined with the page-level handlers:
on a correct answer `onCorrect` runs `award(topic.quiz.xp ?? 40)` then
`onNext()` (= `nextTopicOrBoss`); on a wrong answer `onWrong` runs
`onMiss` (= `breakStreak`) and the panel is untouched. -/
def quizSubmit (ch : Chapter) (q : Question) (ans : Submitted) (p : Panel) (m : Meta) :
    Panel × Meta :=
  if evalOk q ans then (nextTopicOrBoss ch p, awardXP m (q.xp.getD 40))
  else (p, breakStreak m)

/-- Outcome of one `BossPanel.submit` click: advance to the next question
(with the answer reset), win the boss, or stay put for a retry. -/
inductive BossResult
  | advance (next : Nat)
  | win
  | retry
deriving Repr, DecidableEq

/-- `BossPanel.submit`: evaluate the current question `q =
boss.questions?.[idx]`; if correct, `next = idx + 1` either advances
(`next < questions.length`) or calls `onWin()`; if wrong, `onMiss()` and
the sub-index is unchanged. When `idx` is out of range the panel renders
"Boss not configured yet." and no submit button exists, modelled as
`retry`. -/
def bossSubmit (qs : List Question) (idx : Nat) (ans : Submitted) : BossResult :=
  match qs.get? idx with
  | Option.none => .retry
  | some q =>
      if evalOk q ans then
        if idx + 1 < qs.length then .advance (idx + 1) else .win
      else .retry

/-- `markChapterComplete(i)`: set `done[i] = true`, `awardXP(120)`,
`grantBadge(Chapter (i+1) Cleared)`, and `if (i===2) setShowMaze(true)`.
Result: the new flags array, the new meta, and the new `showMaze` flag. -/
def markChapterComplete (i : Nat) (done : List Bool) (m : Meta) (showMaze : Bool) :
    List Bool × Meta × Bool :=
  (done.set i true,
   grantBadge (awardXP m 120) ("Chapter " ++ toString (i + 1) ++ " Cleared"),
   if i == 2 then true else showMaze)

/-- JSON values, as produced by `JSON.parse` (number precision aside:
the persisted counters are integers). -/
inductive JValue
  | num (n : Int)
  | str (s : String)
  | bool (b : Bool)
  | arr (xs : List JValue)
  | obj (fields : List (String × JValue))
  | null

/-- The default meta object `\x7b xp: 0, coins: 0, streak: 0, badges: [],
settings: SETTINGS \x7d` as the JSON-level record the hydration effect starts
from. -/
def defaultMetaObj : List (String × JValue) :=
  [("xp", .num 0), ("coins", .num 0), ("streak", .num 0), ("badges", .arr []),
   ("settings", .obj [("sequentialUnlock", .bool true)])]

/-- JavaScript object spread `\x7b ...prev, ...extra \x7d`: every key of `prev`
keeps its position, taking the value from `extra` when `extra` also has
the key; keys of `extra` absent from `prev` are appended. -/
def spreadMerge (prev extra : List (String × JValue)) : List (String × JValue) :=
  prev.map (fun kv => (kv.1, (extra.lookup kv.1).getD kv.2)) ++
    extra.filter (fun kv => (prev.lookup kv.1).isNone)

/-- Hydration of the persisted meta record at session start:
`const m = localStorage.getItem(lsMetaKey); if (m) setMeta((prev)=>
(\x7b ...prev, ...JSON.parse(m) \x7d))` inside `try ... catch \x7b\x7d`. `stored = none`
models a missing record or a `JSON.parse` failure (swallowed by the
catch); `some fields` models a record that parses to a JSON object with
the given fields (the persisted meta is object-valued). -/
def hydrateMeta (stored : Option (List (String × JValue))) : List (String × JValue) :=
  match stored with
  | Option.none => defaultMetaObj
  | some fields => spreadMerge defaultMetaObj fields

/-- One entry of the content loader's result: `\x7b index: i, exists, data \x7d`
(the source field `exists` is a Lean keyword, rendered here as `present`). -/
structure LoadedEntry where
  index : Nat
  present : Bool
  data : Option Chapter
deriving Repr, DecidableEq

/-- The try/catch body of one iteration of the loader loop: a successful
`import` pushes `\x7b index: i, exists: true, data: mod.default \x7d`, a failed
one pushes `\x7b index: i, exists: false, data: null \x7d`. `outcome i` is the
result of import attempt `i` (`none` = the import threw). -/
def loadStep (outcome : Nat → Option Chapter) (i : Nat) : LoadedEntry :=
  match outcome i with
  | some d => { index := i, present := true, data := some d }
  | Option.none => { index := i, present := false, data := Option.none }

/-- The loader loop `for (let i = 0; i < importers.length; i++)` over the
10 importers: each iteration appends its entry in index order. -/
def loadChapters (outcome : Nat → Option Chapter) : List LoadedEntry :=
  (List.range 10).map (loadStep outcome)

/-- Observable state of `useGitChapters`: the `chapters` list and the
`loading` flag. -/
structure LoaderState where
  chapters : List LoadedEntry
  loading : Bool
deriving Repr, DecidableEq

/-- `useGitChapters`, indexed by how many of the 10 awaited import
attempts have resolved so far: `setLoading(true)` runs before the loop and
`setChapters(loaded); setLoading(false)` runs only after all 10 attempts
have resolved (success and failure alike — each is caught), so with fewer
than 10 resolved the hook still shows the initial `[]` with
`loading = true`. -/
def useGitChapters (outcome : Nat → Option Chapter) (resolved : Nat) : LoaderState :=
  if resolved < 10 then { chapters := [], loading := true }
  else { chapters := loadChapters outcome, loading := false }

/-! ## Theorems -/

/-- C1: for every chapter index i and every progress ledger, canOpen(i)
returns true if and only if settings.sequentialUnlock is false, or i
equals 0, or the completion flag of chapter i-1 is true. -/
theorem C1_unlock_policy (settings : Settings) (done : List Bool) (i : Nat) :
    canOpen settings done i = true ↔
      (settings.sequentialUnlock = false ∨ i = 0 ∨ done.getD (i - 1) false = true) := by
  obtain ⟨su⟩ := settings
  cases su <;> simp [canOpen]

/-- C2: one call to awardXP(baseAmount) yields xp' = xp + baseAmount +
(10 if streak >= 3 else 0), coins' = coins + floor(baseAmount / 10), and
streak' = streak + 1; in particular, from streak 0 an award of 40
increases xp by exactly 40, coins by 4, and sets streak to 1. -/
theorem C2_awardXP (m : Meta) (base : Nat) :
    (awardXP m base).xp = m.xp + base + (if m.streak ≥ 3 then 10 else 0) ∧
    (awardXP m base).coins = m.coins + base / 10 ∧
    (awardXP m base).streak = m.streak + 1 ∧
    (awardXP { m with streak := 0 } 40).xp = m.xp + 40 ∧
    (awardXP { m with streak := 0 } 40).coins = m.coins + 4 ∧
    (awardXP { m with streak := 0 } 40).streak = 1 := by
  refine ⟨rfl, rfl, rfl, ?_, ?_, rfl⟩ <;> simp [awardXP]

/-- C5: every correct boss answer with a question left advances the
sub-index by exactly 1; a correct answer on the last question (sub-index +
1 equal to the question count) signals chapter completion; every incorrect
answer leaves the sub-index unchanged (retry, unlimited attempts). -/
theorem C5_boss_machine (qs : List Question) (idx : Nat) (ans : Submitted) (q : Question)
    (hq : qs.get? idx = some q) :
    (evalOk q ans = true → idx + 1 < qs.length → bossSubmit qs idx ans = .advance (idx + 1)) ∧
    (evalOk q ans = true → idx + 1 = qs.length → bossSubmit qs idx ans = .win) ∧
    (evalOk q ans = false → bossSubmit qs idx ans = .retry) := by
  unfold bossSubmit
  rw [hq]
  refine ⟨fun hok hlt => ?_, fun hok heq => ?_, fun hbad => ?_⟩
  · simp [hok, hlt]
  · rw [← heq] at *
    simp [hok]
  · simp [hbad]

/-- Witness for C5 on a one-question boss: a correct answer on the last
question wins. -/
theorem C5_boss_machine_witness :
    bossSubmit [{ qtype := "mcq", answer := some 1 }] 0 (Submitted.idx 1) = BossResult.win :=
  (C5_boss_machine [{ qtype := "mcq", answer := some 1 }] 0 (Submitted.idx 1) _ rfl).2.1
    (by decide) rfl

/-- C6: on an incorrect quiz answer, the panel state (open, idx, mode,
topicIdx) is unchanged and the only change to the meta record is that the
streak is set to 0 — xp, coins and badges are unchanged and no reward is
granted. -/
theorem C6_quiz_wrong (ch : Chapter) (q : Question) (ans : Submitted) (p : Panel) (m : Meta)
    (h : evalOk q ans = false) :
    (quizSubmit ch q ans p m).1 = p ∧
    (quizSubmit ch q ans p m).2.streak = 0 ∧
    (quizSubmit ch q ans p m).2.xp = m.xp ∧
    (quizSubmit ch q ans p m).2.coins = m.coins ∧
    (quizSubmit ch q ans p m).2.badges = m.badges := by
  simp [quizSubmit, h, breakStreak]

/-- Witness for C6: a wrong multiple-choice selection leaves the panel in
place and only zeroes the streak. -/
theorem C6_quiz_wrong_witness :
    (quizSubmit { topics := some [{ quiz := some { qtype := "mcq", answer := some 1 } }] }
        { qtype := "mcq", answer := some 1 } (Submitted.idx 0)
        { opened := true, idx := some 0, mode := .QUIZ, topicIdx := 0 }
        { xp := 7, coins := 3, streak := 2, badges := ["b"] }).1 =
      { opened := true, idx := some 0, mode := .QUIZ, topicIdx := 0 } ∧
    (quizSubmit { topics := some [{ quiz := some { qtype := "mcq", answer := some 1 } }] }
        { qtype := "mcq", answer := some 1 } (Submitted.idx 0)
        { opened := true, idx := some 0, mode := .QUIZ, topicIdx := 0 }
        { xp := 7, coins := 3, streak := 2, badges := ["b"] }).2.streak = 0 :=
  ⟨(C6_quiz_wrong _ _ _ _ _ (by decide)).1, (C6_quiz_wrong _ _ _ _ _ (by decide)).2.1⟩

/-- Badge insertion reaches the badge set whether or not it was already
present. -/
theorem grantBadge_mem (m : Meta) (name : String) : name ∈ (grantBadge m name).badges := by
  unfold grantBadge
  split
  · next h => exact List.mem_of_elem_eq_true h
  · exact List.mem_append_right _ (List.mem_singleton_self _)

/-- Badge insertion changes no other meta field: xp is preserved. -/
theorem grantBadge_xp (m : Meta) (name : String) : (grantBadge m name).xp = m.xp := by
  unfold grantBadge
  split <;> rfl

/-- C7: completing chapter i's boss sets flags[i] to true, invokes the
reward calculator for the chapter-clear bonus of 120, grants the badge
"Chapter (i+1) Cleared", and triggers the Merge Maze mini-game exactly
when i equals the threshold index 2. -/
theorem C7_chapter_complete (i : Nat) (done : List Bool) (m : Meta) (showMaze : Bool)
    (hi : i < done.length) :
    (markChapterComplete i done m showMaze).1[i]? = some true ∧
    (markChapterComplete i done m showMaze).2.1 =
      grantBadge (awardXP m 120) ("Chapter " ++ toString (i + 1) ++ " Cleared") ∧
    (markChapterComplete i done m showMaze).2.1.xp =
      m.xp + 120 + (if m.streak ≥ 3 then 10 else 0) ∧
    ("Chapter " ++ toString (i + 1) ++ " Cleared") ∈
      (markChapterComplete i done m showMaze).2.1.badges ∧
    (showMaze = false → ((markChapterComplete i done m showMaze).2.2 = true ↔ i = 2)) := by
  refine ⟨?_, rfl, ?_, grantBadge_mem _ _, fun hsm => ?_⟩
  · exact List.getElem?_set_eq_of_lt true hi
  · show (grantBadge (awardXP m 120) ("Chapter " ++ toString (i + 1) ++ " Cleared")).xp = _
    rw [grantBadge_xp]
    rfl
  · subst hsm
    simp [markChapterComplete]

/-- Witness for C7 at the mini-game threshold chapter. -/
theorem C7_chapter_complete_witness :
    (markChapterComplete 2 (List.replicate 10 false) defaultMeta false).1[2]? = some true ∧
    ((markChapterComplete 2 (List.replicate 10 false) defaultMeta false).2.2 = true ↔ 2 = 2) :=
  ⟨(C7_chapter_complete 2 (List.replicate 10 false) defaultMeta false (by decide)).1,
   (C7_chapter_complete 2 (List.replicate 10 false) defaultMeta false (by decide)).2.2.2.2 rfl⟩

/-- C10: for every chapter index i such that canOpen(i) is false, calling
openChapter(i) is a no-op — the panel state is left unchanged. -/
theorem C10_openChapter_noop (settings : Settings) (done : List Bool) (i : Nat) (p : Panel)
    (h : canOpen settings done i = false) :
    openChapter settings done i p = p := by
  simp [openChapter, h]

/-- Witness for C10: chapter 1 is locked on a fresh ledger under
sequential unlock, and opening it changes nothing. -/
theorem C10_openChapter_noop_witness :
    openChapter SETTINGS (List.replicate 10 false) 1
      { opened := false, idx := Option.none, mode := .LESSON, topicIdx := 0 } =
      { opened := false, idx := Option.none, mode := .LESSON, topicIdx := 0 } :=
  C10_openChapter_noop SETTINGS (List.replicate 10 false) 1
    { opened := false, idx := Option.none, mode := .LESSON, topicIdx := 0 } (by decide)

/-- Lower-casing a string yields the empty string exactly for the empty
string. -/
theorem jsToLower_eq_empty (t : String) : jsToLower t = "" ↔ t = "" := by
  obtain ⟨data⟩ := t
  simp [jsToLower, String.ext_iff]

/-- C3 counterexample: with stored answer text "init " (trailing space)
and submitted text "init", the trimmed-lowercased forms of both sides
agree, yet the code judges the submission incorrect — the stored text is
never trimmed. -/
theorem C3_counterexample :
    ¬ (evalOk { qtype := "blank", answerText := some "init " } (Submitted.text "init") = true ↔
       jsToLower (jsTrim "init") = jsToLower (jsTrim "init ")) := by
  decide

/-- C3 amended: a fill-in-blank submission is judged correct if and only
if the trimmed, lowercased submitted text equals the lowercased (but not
trimmed) stored answer text. The same comparison is used by
`QuizPanel.submit` and `BossPanel.submit` (both call into `evalOk`). -/
theorem C3_blank_eval (s t : String) :
    evalOk { qtype := "blank", answer := Option.none, answerText := some t, xp := Option.none }
        (Submitted.text s) = true ↔
      jsToLower (jsTrim s) = jsToLower t := by
  simp [evalOk, blankOk, submittedText]

/-- C9 counterexample: on a fill-in-blank question whose stored answer
text is the empty string, a null submission is judged correct — the
coerced empty submission compares equal to the empty stored text. -/
theorem C9_counterexample :
    evalOk { qtype := "blank", answerText := some "" } Submitted.none = true := by
  decide

/-- C9 amended: a missing/null submitted answer never raises (evaluation
is a total function) and is judged correct exactly on a fill-in-blank
question whose stored answer text is empty; for every multiple-choice
question and every fill-in-blank question with nonempty stored answer
text it is judged incorrect. -/
theorem C9_null_eval (q : Question) :
    evalOk q Submitted.none = true ↔ (q.qtype = "blank" ∧ q.answerText = some "") := by
  obtain ⟨ty, ansIdx, ansText, xp⟩ := q
  simp only [evalOk]
  by_cases hb : ty = "blank"
  · subst hb
    cases ansText with
    | none => simp [blankOk]
    | some t =>
        simp [blankOk, submittedText, jsTrim, jsToLower_eq_empty]
        constructor
        · intro h
          exact (jsToLower_eq_empty t).mp h.symm
        · intro h
          subst h
          rfl
  · by_cases hm : ty = "mcq"
    · subst hm
      cases ansIdx <;> simp [mcqOk, hb]
    · simp [hb, hm, show (ty == "blank") = false from by simpa using hb,
        show (ty == "mcq") = false from by simpa using hm]

/-- Looking a key up in a value-rewritten association list. -/
theorem lookup_map_getD (extra prev : List (String × JValue)) (k : String) (v : JValue)
    (h : prev.lookup k = some v) :
    (prev.map (fun kv => (kv.1, (extra.lookup kv.1).getD kv.2))).lookup k =
      some ((extra.lookup k).getD v) := by
  induction prev with
  | nil => simp [List.lookup] at h
  | cons kv rest ih =>
      obtain ⟨a, b⟩ := kv
      by_cases hk : (k == a) = true
      · have hka : k = a := eq_of_beq hk
        rw [List.lookup, hk] at h
        simp only [List.map_cons]
        rw [List.lookup, hk]
        cases h
        rw [hka]
      · have hk' : (k == a) = false := by simpa using hk
        rw [List.lookup, hk'] at h
        simp only [List.map_cons]
        rw [List.lookup, hk']
        exact ih h

/-- A key found in the left part of an appended association list is found
in the whole. -/
theorem lookup_append_left {xs ys : List (String × JValue)} {k : String} {v : JValue}
    (h : xs.lookup k = some v) : (xs ++ ys).lookup k = some v := by
  induction xs with
  | nil => simp [List.lookup] at h
  | cons kv rest ih =>
      obtain ⟨a, b⟩ := kv
      by_cases hk : (k == a) = true
      · rw [List.lookup, hk] at h
        rw [List.cons_append, List.lookup, hk]
        exact h
      · have hk' : (k == a) = false := by simpa using hk
        rw [List.lookup, hk'] at h
        rw [List.cons_append, List.lookup, hk']
        exact ih h

/-- Spreading `extra` over `prev` overrides exactly the keys `extra`
carries and keeps the remaining `prev` values. -/
theorem spreadMerge_lookup (prev extra : List (String × JValue)) (k : String) (v : JValue)
    (h : prev.lookup k = some v) :
    (spreadMerge prev extra).lookup k = some ((extra.lookup k).getD v) :=
  lookup_append_left (lookup_map_getD extra prev k v h)

/-- C4 counterexample: the persisted meta record with xp 50 and a
non-numeric coins field is not discarded — hydration does not produce
the default meta. -/
theorem C4_counterexample :
    hydrateMeta (some [("xp", JValue.num 50), ("coins", JValue.str "bad")]) ≠ defaultMetaObj := by
  intro h
  have h50 := congrArg (List.lookup "xp") h
  have hx : some (JValue.num 50) = some (JValue.num 0) := h50
  injection hx with h1
  injection h1 with h2
  exact absurd h2 (by decide)

/-- C4 amended: hydration falls back to the default meta only when the
persisted record is missing or fails to parse; a parsed record is merged
field-by-field over the defaults with no shape validation, so every field
the record carries (numeric or not) overrides the default of the same
name. -/
theorem C4_hydration (fields : List (String × JValue)) (k : String) (v : JValue)
    (h : defaultMetaObj.lookup k = some v) :
    hydrateMeta Option.none = defaultMetaObj ∧
    (hydrateMeta (some fields)).lookup k = some ((fields.lookup k).getD v) :=
  ⟨rfl, spreadMerge_lookup defaultMetaObj fields k v h⟩

/-- Witness for C4 amended: the malformed coins value survives the merge. -/
theorem C4_hydration_witness :
    (hydrateMeta (some [("xp", JValue.num 50), ("coins", JValue.str "bad")])).lookup "coins" =
      some (JValue.str "bad") :=
  (C4_hydration [("xp", JValue.num 50), ("coins", JValue.str "bad")] "coins" (JValue.num 0)
    rfl).2

/-- C8: while fewer than all 10 import attempts have resolved the loading
flag is true; once all 10 have resolved it is false and the collection
holds, at every index i, an entry for chapter i that is
exists-true-with-data on success and exists-false-with-null on failure;
the entry at index i is a function of attempt i's outcome alone, so a
failure at another index never affects it. -/
theorem C8_content_loader (outcome : Nat → Option Chapter) (k i : Nat) (hi : i < 10) :
    (k < 10 → (useGitChapters outcome k).loading = true) ∧
    (10 ≤ k → (useGitChapters outcome k).loading = false ∧
      (useGitChapters outcome k).chapters.length = 10 ∧
      (useGitChapters outcome k).chapters[i]? = some (loadStep outcome i)) ∧
    ((loadStep outcome i).index = i ∧
      (((loadStep outcome i).present = true ∧ (loadStep outcome i).data = outcome i ∧
          (outcome i).isSome = true) ∨
        ((loadStep outcome i).present = false ∧ (loadStep outcome i).data = Option.none ∧
          outcome i = Option.none))) ∧
    (∀ outcome2 : Nat → Option Chapter, outcome2 i = outcome i →
      loadStep outcome2 i = loadStep outcome i) := by
  refine ⟨fun hk => ?_, fun hk => ?_, ⟨?_, ?_⟩, fun outcome2 h2 => ?_⟩
  · simp [useGitChapters, hk]
  · have hk' : ¬ k < 10 := by omega
    refine ⟨?_, ?_, ?_⟩ <;>
      simp [useGitChapters, hk', loadChapters, List.getElem?_map, List.getElem?_range, hi]
  · cases h : outcome i <;> simp [loadStep, h]
  · cases h : outcome i <;> simp [loadStep, h]
  · unfold loadStep
    rw [h2]

/-- Witness for C8: with every import failing, after all 10 attempts the
loader reports not-loading, 10 entries, and an exists-false entry at
index 0. -/
theorem C8_content_loader_witness :
    (useGitChapters (fun _ => Option.none) 10).loading = false ∧
    (useGitChapters (fun _ => Option.none) 10).chapters.length = 10 ∧
    (useGitChapters (fun _ => Option.none) 10).chapters[0]? =
      some { index := 0, present := false, data := Option.none } :=
  ⟨((C8_content_loader (fun _ => Option.none) 10 0 (by decide)).2.1 (by decide)).1,
   ((C8_content_loader (fun _ => Option.none) 10 0 (by decide)).2.1 (by decide)).2.1,
   ((C8_content_loader (fun _ => Option.none) 10 0 (by decide)).2.1 (by decide)).2.2⟩

end GitQuest
